import Mathlib

/-!
Shallow embedding of the wishday backend (TypeScript/Express/Drizzle) for
specification verification.

Source files embedded:
* `src/db/schema.ts` — tables `users` and `contacts_birthdays`.
* the contacts controller (unnamed source file) — zod validation schemas,
  `getAuthenticatedUser`, `getContacts`, `getContactById`, `createContact`,
  `updateContact`, `deleteContact`.
* `src/controllers/usersController.ts` — `syncUser` (Postgres upsert on the
  unique `clerk_user_id` column).
* `src/controllers/assistantController.ts` — `MONTH_NAMES`, `formatContact`,
  `getUserId`, `createTools`, `chatWithAssistant`.

Modelling conventions: the database is a pair of lists (`Store`); SQL
`select ... where ... limit 1` is `List.find?`; `update ... where` maps over
the rows; uuid primary keys and Clerk ids are `String`; timestamps are `Nat`
(only ordering matters); JS `number` columns are `Int`.  Fresh ids and the
current time, produced effectfully in the code, are explicit parameters.
JS truthiness tests on strings/numbers/optionals are translated exactly
(`0`, `""`, `null`/absent are falsy).
-/

/-- Row of the `users` table (`schema.ts`): uuid id, unique non-null
`clerk_user_id`, nullable email, timestamps. -/
structure User where
  id : String
  clerkUserId : String
  email : Option String
  createdAt : Nat
  updatedAt : Nat
deriving DecidableEq, Repr

/-- Row of the `contacts_birthdays` table (`schema.ts`): uuid id, owning
`user_id`, non-null name, nullable `birthday_year`, non-null month and day,
timestamps.  The table declares no notes column, but `formatContact` in the
assistant controller reads a `notes` property off the row, so the record
carries it as an `Option String` (always `none` for rows produced by this
system's inserts). -/
structure Contact where
  id : String
  userId : String
  name : String
  birthdayYear : Option Int
  birthdayMonth : Int
  birthdayDay : Int
  notes : Option String
  createdAt : Nat
  updatedAt : Nat
deriving DecidableEq, Repr

/-- The relational store: the two tables. -/
structure Store where
  users : List User
  contacts : List Contact
deriving DecidableEq, Repr

/-- One `{field, message}` pair as produced by `formatZodError`. -/
structure FieldError where
  field : String
  message : String
deriving DecidableEq, Repr

/-- JSON response bodies the controllers produce. -/
inductive RespBody where
  /-- `{ "error": msg }` -/
  | errorObj (msg : String)
  /-- `{ "errors": [...] }` from `formatZodError` -/
  | fieldErrors (errs : List FieldError)
  /-- a single contact record serialized -/
  | contact (c : Contact)
  /-- a list of contact records serialized -/
  | contacts (cs : List Contact)
  /-- `{ "success": true }` -/
  | successTrue
  /-- empty body (`res.status(204).send()`) -/
  | empty
deriving DecidableEq, Repr

/-- An HTTP response: status code and JSON body. -/
structure Response where
  status : Nat
  body : RespBody
deriving DecidableEq, Repr

/-! ## Contacts controller -/

/-- `db.select().from(users).where(eq(users.clerkUserId, clerkUserId)).limit(1)`. -/
def findUserByClerk (s : Store) (clerk : String) : Option User :=
  s.users.find? (fun u => u.clerkUserId == clerk)

/-- `getAuthenticatedUser` (contacts controller): 401 `Unauthorized` when the
request carries no verified Clerk user id, 404 `User not found` when no
internal row matches it, otherwise the user row. -/
def getAuthenticatedUser (auth : Option String) (s : Store) : Except Response User :=
  match auth with
  | none => .error ⟨401, .errorObj "Unauthorized"⟩
  | some clerk =>
    match findUserByClerk s clerk with
    | none => .error ⟨404, .errorObj "User not found"⟩
    | some u => .ok u

/-- `db.select().from(contactsBirthdays).where(and(eq(id, id), eq(userId, uid))).limit(1)`:
the conjunctive owner-scoped lookup used by get-by-id, update and delete. -/
def findOwnedContact (s : Store) (uid cid : String) : Option Contact :=
  s.contacts.find? (fun c => c.id == cid && c.userId == uid)

/-- `GET /api/contacts` — `getContacts`. -/
def getContacts (auth : Option String) (s : Store) : Response :=
  match getAuthenticatedUser auth s with
  | .error r => r
  | .ok u => ⟨200, .contacts (s.contacts.filter (fun c => c.userId == u.id))⟩

/-- `GET /api/contacts/:id` — `getContactById`. -/
def getContactById (auth : Option String) (s : Store) (cid : String) : Response :=
  match getAuthenticatedUser auth s with
  | .error r => r
  | .ok u =>
    match findOwnedContact s u.id cid with
    | none => ⟨404, .errorObj "Contact not found"⟩
    | some c => ⟨200, .contact c⟩

/-- Request body for `POST /api/contacts`.  `birthdayYear` is
`z.number().int().nullable().optional()`: the outer `Option` is key absence,
the inner one is an explicit JSON `null`. -/
structure CreateBody where
  name : String
  birthdayMonth : Int
  birthdayDay : Int
  birthdayYear : Option (Option Int)
deriving DecidableEq, Repr

/-- `createContactSchema.safeParse` followed by `formatZodError`: the list of
per-field issues (empty means the parse succeeded).  `z.string().min(1)`
rejects the empty string; month and day are independently range-checked. -/
def validateCreate (b : CreateBody) : List FieldError :=
  (if b.name = "" then [⟨"name", "Name is required"⟩] else [])
  ++ (if b.birthdayMonth < 1 ∨ 12 < b.birthdayMonth then
        [⟨"birthdayMonth", "Month must be between 1 and 12"⟩] else [])
  ++ (if b.birthdayDay < 1 ∨ 31 < b.birthdayDay then
        [⟨"birthdayDay", "Day must be between 1 and 31"⟩] else [])

/-- `POST /api/contacts` — `createContact`.  Validation runs before the auth
lookup; `birthdayYear ?? null` collapses key absence and `null`; the insert
row takes the freshly generated uuid `newId` and `now` for both timestamps. -/
def createContact (auth : Option String) (s : Store) (b : CreateBody)
    (newId : String) (now : Nat) : Response × Store :=
  match validateCreate b with
  | [] =>
    match getAuthenticatedUser auth s with
    | .error r => (r, s)
    | .ok u =>
      let c : Contact :=
        { id := newId, userId := u.id, name := b.name,
          birthdayYear := b.birthdayYear.join,
          birthdayMonth := b.birthdayMonth, birthdayDay := b.birthdayDay,
          notes := none, createdAt := now, updatedAt := now }
      (⟨201, .contact c⟩, { s with contacts := s.contacts ++ [c] })
  | errs => (⟨400, .fieldErrors errs⟩, s)

/-- Request body for `PUT /api/contacts/:id`: every field optional, with
`birthdayYear` again distinguishing absence from explicit `null`. -/
structure UpdateBody where
  name : Option String
  birthdayMonth : Option Int
  birthdayDay : Option Int
  birthdayYear : Option (Option Int)
deriving DecidableEq, Repr

/-- `updateContactSchema.safeParse` + `formatZodError`: per-field issues from
the optional field checks; the `.refine` (at least one key present, empty
path so field `""`) fires only when the field checks all pass. -/
def validateUpdate (b : UpdateBody) : List FieldError :=
  let fieldIssues :=
    (match b.name with
     | some n => if n = "" then [⟨"name", "Name cannot be empty"⟩] else []
     | none => [])
    ++ (match b.birthdayMonth with
        | some m => if m < 1 ∨ 12 < m then
            [⟨"birthdayMonth", "Month must be between 1 and 12"⟩] else []
        | none => [])
    ++ (match b.birthdayDay with
        | some d => if d < 1 ∨ 31 < d then
            [⟨"birthdayDay", "Day must be between 1 and 31"⟩] else []
        | none => [])
  if fieldIssues = [] ∧ b.name = none ∧ b.birthdayMonth = none
      ∧ b.birthdayDay = none ∧ b.birthdayYear = none then
    [⟨"", "At least one field must be provided for update"⟩]
  else fieldIssues

/-- The `updateData` object: `updatedAt` always refreshed, each body field
copied onto the row only when it was provided (`!== undefined`). -/
def applyUpdate (b : UpdateBody) (now : Nat) (c : Contact) : Contact :=
  { c with
    updatedAt := now,
    name := b.name.getD c.name,
    birthdayMonth := b.birthdayMonth.getD c.birthdayMonth,
    birthdayDay := b.birthdayDay.getD c.birthdayDay,
    birthdayYear := match b.birthdayYear with
      | some v => v
      | none => c.birthdayYear }

/-- `PUT /api/contacts/:id` — `updateContact`.  Validation, then auth, then
the owner-scoped existence check; the `db.update ... where and(id, userId)`
maps over every matching row and `.returning()[0]` is the updated first
match. -/
def updateContact (auth : Option String) (s : Store) (cid : String)
    (b : UpdateBody) (now : Nat) : Response × Store :=
  match validateUpdate b with
  | [] =>
    match getAuthenticatedUser auth s with
    | .error r => (r, s)
    | .ok u =>
      match findOwnedContact s u.id cid with
      | none => (⟨404, .errorObj "Contact not found"⟩, s)
      | some c0 =>
        let newContacts := s.contacts.map
          (fun c => if c.id == cid && c.userId == u.id then applyUpdate b now c else c)
        (⟨200, .contact (applyUpdate b now c0)⟩, { s with contacts := newContacts })
  | errs => (⟨400, .fieldErrors errs⟩, s)

/-- `DELETE /api/contacts/:id` — `deleteContact`: owner-scoped existence
check, then `db.delete ... where and(id, userId)`, then 204. -/
def deleteContact (auth : Option String) (s : Store) (cid : String) :
    Response × Store :=
  match getAuthenticatedUser auth s with
  | .error r => (r, s)
  | .ok u =>
    match findOwnedContact s u.id cid with
    | none => (⟨404, .errorObj "Contact not found"⟩, s)
    | some _ =>
      (⟨204, .empty⟩,
       { s with
         contacts := s.contacts.filter (fun c => !(c.id == cid && c.userId == u.id)) })

/-! ## Users controller -/

/-- `POST /api/users/sync` — `syncUser` (`usersController.ts`).  The email is
fetched from the external Clerk directory, so it is a parameter; success of
that fetch is assumed (its failure is the catch-all 500).  The Drizzle
`insert ... onConflictDoUpdate` on the unique `clerk_user_id` column either
appends a fresh row (both timestamps defaulted to now, fresh uuid `newId`)
or updates `email` and `updatedAt` on the conflicting row. -/
def syncUser (auth : Option String) (s : Store) (email : Option String)
    (newId : String) (now : Nat) : Response × Store :=
  match auth with
  | none => (⟨401, .errorObj "Unauthorized"⟩, s)
  | some clerk =>
    if s.users.any (fun u => u.clerkUserId == clerk) then
      (⟨200, .successTrue⟩,
       { s with
         users := s.users.map (fun u =>
           if u.clerkUserId == clerk then { u with email := email, updatedAt := now } else u) })
    else
      (⟨200, .successTrue⟩,
       { s with users := s.users ++ [⟨newId, clerk, email, now, now⟩] })

/-- Number of `users` rows keyed by a given Clerk id (the column carries a
UNIQUE constraint, so a consistent store has at most one). -/
def userCountByClerk (l : List User) (clerk : String) : Nat :=
  l.countP (fun u => u.clerkUserId == clerk)

/-! ## Assistant controller -/

/-- The fixed model identifier. -/
def MODEL : String := "openai/gpt-oss-120b"

/-- `MONTH_NAMES` — human month names indexed 0..11. -/
def MONTH_NAMES : List String :=
  ["January", "February", "March", "April", "May", "June",
   "July", "August", "September", "October", "November", "December"]

/-- `MONTH_NAMES[month - 1]` with JavaScript out-of-bounds semantics: any
index outside 0..11 yields `undefined`, which stringifies as "undefined". -/
def monthNameJS (m : Int) : String :=
  if m < 1 then "undefined" else MONTH_NAMES.getD (m - 1).toNat "undefined"

/-- `formatContact`: one line per contact.  The template is
`- ${name}: ${MONTH_NAMES[month-1]} ${day}${year ? ", year" : ""}${notes ? " | Notes: notes" : ""}`;
the year and notes interpolations use JS truthiness, so year `0`, a missing
notes property and an empty notes string all suppress their suffix. -/
def formatContact (c : Contact) : String :=
  let yearSuffix := match c.birthdayYear with
    | some y => if y = 0 then "" else ", " ++ toString y
    | none => ""
  let birthday := monthNameJS c.birthdayMonth ++ " " ++ toString c.birthdayDay ++ yearSuffix
  let notesSuffix := match c.notes with
    | some n => if n = "" then "" else " | Notes: " ++ n
    | none => ""
  "- " ++ c.name ++ ": " ++ birthday ++ notesSuffix

/-- `getUserId` (assistant controller): resolve the Clerk id to the internal
user id, `null` when no row matches. -/
def getUserId (s : Store) (clerkUserId : String) : Option String :=
  match s.users.find? (fun u => u.clerkUserId == clerkUserId) with
  | some u => some u.id
  | none => none

/-- The single tool object built by `createTools`: its description string and
the user id it closes over (its input schema is the empty object). -/
structure GetContactsTool where
  description : String
  userId : Option String
deriving DecidableEq, Repr

/-- The tool set passed to `streamText`: the literal `{ getContacts: ... }`
object, which holds exactly one tool. -/
structure ToolSet where
  getContacts : GetContactsTool
deriving DecidableEq, Repr

/-- Apostrophe character, for sentinel strings containing one. -/
def apoChar : Char := Char.ofNat 39

/-- The tool result when the user has no contacts row at all. -/
def userNotFoundSentinel : String :=
  "User not found. Please ensure you are logged in."

/-- The tool result when the user owns zero contacts. -/
def noContactsSentinel : String :=
  "No contacts found. The user hasn" ++ String.singleton apoChar
    ++ "t added any birthdays yet."

/-- `createTools(userId)`. -/
def createTools (userId : Option String) : ToolSet :=
  { getContacts :=
    { description := "Get all contacts and their birthdays. Use when user asks about birthdays, contacts, upcoming celebrations, or specific people.",
      userId := userId } }

/-- The `execute` body of the `getContacts` tool: sentinel when no user id
was resolved; otherwise select the user's contacts, sentinel when there are
none, else a count header and one formatted line per contact. -/
def toolExecute (t : GetContactsTool) (s : Store) : String :=
  match t.userId with
  | none => userNotFoundSentinel
  | some uid =>
    let contacts := s.contacts.filter (fun c => c.userId == uid)
    if contacts.length = 0 then noContactsSentinel
    else
      toString contacts.length ++ " contact(s):\n"
        ++ String.intercalate "\n" (contacts.map formatContact)

/-- A chat message as sent by the client (role and content). -/
structure ChatMessage where
  role : String
  content : String
deriving DecidableEq, Repr

/-- The `messages` field of the request body as seen after `express.json`:
either an array of messages, or some other (non-array or falsy) JSON value. -/
inductive MessagesField where
  | arr (msgs : List ChatMessage)
  | notArr
deriving DecidableEq, Repr

/-- `stopWhen` conditions: the code only ever uses `stepCountIs(3)`. -/
inductive StopCondition where
  | stepCountIs (n : Nat)
deriving DecidableEq, Repr

/-- Whether a stop condition fires after `steps` completed steps
(`stepCountIs(n)` fires once the step count has reached `n`). -/
def stopHolds : StopCondition → Nat → Bool
  | .stepCountIs n, steps => n ≤ steps

/-- The `streamText` loop skeleton: starting from `done` completed steps and
with the model wanting up to `fuel` more, keep performing steps while the
stop condition has not fired; returns the final number of completed steps. -/
def loopSteps (stop : Nat → Bool) : Nat → Nat → Nat
  | 0, done => done
  | fuel + 1, done => if stop done then done else loopSteps stop fuel (done + 1)

/-- The configuration `chatWithAssistant` hands to `streamText`: model id,
converted message history, stop condition, tool set.  (The system prompt is
interpolated from the wall clock and is not modelled.) -/
structure StreamTextCall where
  model : String
  messages : List ChatMessage
  stopWhen : StopCondition
  tools : ToolSet
deriving DecidableEq, Repr

/-- Outcome of `chatWithAssistant`: an early JSON rejection, or a streaming
completion call. -/
inductive ChatResult where
  | resp (r : Response)
  | stream (call : StreamTextCall)
deriving DecidableEq, Repr

/-- `POST /api/assistant/chat` — `chatWithAssistant`.  The message-shape
check (`!messages || !Array.isArray(messages)`) runs first, then the auth
check, then `getUserId` and the `streamText` call with `stepCountIs(3)` and
`createTools(userId)`.  `convertToModelMessages` is an external pure
conversion and is modelled as the identity on the message list. -/
def chatWithAssistant (auth : Option String) (s : Store)
    (messages : Option MessagesField) : ChatResult :=
  match messages with
  | none => .resp ⟨400, .errorObj "Messages array is required"⟩
  | some .notArr => .resp ⟨400, .errorObj "Messages array is required"⟩
  | some (.arr msgs) =>
    match auth with
    | none => .resp ⟨401, .errorObj "Unauthorized"⟩
    | some clerk =>
      .stream
        { model := MODEL, messages := msgs,
          stopWhen := .stepCountIs 3,
          tools := createTools (getUserId s clerk) }

/-! ## Theorems -/

/-- C4: `formatContact` renders a contact as name, human month name and day,
with a year suffix only when a (non-zero) birth year is present; in
particular Ada (month 12, day 10, year 1815) renders exactly as
`- Ada: December 10, 1815`, and without a year as `- Ada: December 10`. -/
theorem formatContact_renders_C4 :
    (∀ c : Contact, c.name = "Ada" → c.birthdayMonth = 12 → c.birthdayDay = 10 →
        c.birthdayYear = some 1815 → c.notes = none →
        formatContact c = "- Ada: December 10, 1815") ∧
    (∀ c : Contact, c.name = "Ada" → c.birthdayMonth = 12 → c.birthdayDay = 10 →
        c.birthdayYear = none → c.notes = none →
        formatContact c = "- Ada: December 10") ∧
    (∀ c : Contact, c.notes = none → 1 ≤ c.birthdayMonth → c.birthdayMonth ≤ 12 →
        (c.birthdayYear = none →
          formatContact c = "- " ++ c.name ++ ": "
            ++ MONTH_NAMES.getD (c.birthdayMonth - 1).toNat "undefined"
            ++ " " ++ toString c.birthdayDay) ∧
        (∀ y : Int, c.birthdayYear = some y → y ≠ 0 →
          formatContact c = "- " ++ c.name ++ ": "
            ++ MONTH_NAMES.getD (c.birthdayMonth - 1).toNat "undefined"
            ++ " " ++ toString c.birthdayDay ++ ", " ++ toString y)) := by
  refine ⟨?_, ?_, ?_⟩
  · intro c h1 h2 h3 h4 h5
    simp [formatContact, monthNameJS, MONTH_NAMES, h1, h2, h3, h4, h5]
    decide
  · intro c h1 h2 h3 h4 h5
    simp [formatContact, monthNameJS, MONTH_NAMES, h1, h2, h3, h4, h5]
    decide
  · intro c hn hm1 hm2
    have hlt : ¬ c.birthdayMonth < 1 := by omega
    constructor
    · intro hy
      simp [formatContact, monthNameJS, hn, hy, hlt, String.append_assoc]
    · intro y hy hy0
      simp [formatContact, monthNameJS, hn, hy, hy0, hlt, String.append_assoc]

/-- Witness for C4 at a concrete contact. -/
theorem formatContact_renders_C4_witness :
    formatContact ⟨"c1", "u1", "Ada", some 1815, 12, 10, none, 0, 0⟩
      = "- Ada: December 10, 1815" :=
  formatContact_renders_C4.1 ⟨"c1", "u1", "Ada", some 1815, 12, 10, none, 0, 0⟩
    rfl rfl rfl rfl rfl

/-- C5: the line produced by `formatContact` carries the `| Notes:` suffix
exactly when the record carries a present, non-empty notes value; with no
notes value (or an empty one, which is falsy in JS) the rendering is the
no-notes rendering unchanged. -/
theorem formatContact_notes_C5 :
    ∀ c : Contact,
      (∀ n, c.notes = some n → n ≠ "" →
        formatContact c = formatContact { c with notes := none } ++ " | Notes: " ++ n) ∧
      ((c.notes = none ∨ c.notes = some "") →
        formatContact c = formatContact { c with notes := none }) := by
  intro c
  constructor
  · intro n hn hne
    simp [formatContact, hn, hne, String.append_assoc]
  · rintro (hn | hn) <;> simp [formatContact, hn]

/-- Witness for C5 at concrete contacts with and without notes. -/
theorem formatContact_notes_C5_witness :
    formatContact ⟨"c1", "u1", "Bo", none, 2, 3, some "cake", 0, 0⟩
      = formatContact ⟨"c1", "u1", "Bo", none, 2, 3, none, 0, 0⟩ ++ " | Notes: cake" :=
  (formatContact_notes_C5 ⟨"c1", "u1", "Bo", none, 2, 3, some "cake", 0, 0⟩).1
    "cake" rfl (by decide)

/-- C3: the `getContacts` tool body is a total function; with no resolved
user id it returns the not-recognized sentinel, and for a user owning zero
contacts it returns the none-added-yet sentinel — both non-empty strings,
never an empty list rendering. -/
theorem toolExecute_sentinels_C3 :
    (∀ (t : GetContactsTool) (s : Store), t.userId = none →
        toolExecute t s = userNotFoundSentinel) ∧
    (∀ (t : GetContactsTool) (s : Store) (uid : String), t.userId = some uid →
        s.contacts.filter (fun c => c.userId == uid) = [] →
        toolExecute t s = noContactsSentinel) ∧
    userNotFoundSentinel ≠ "" ∧ noContactsSentinel ≠ "" := by
  refine ⟨?_, ?_, by decide, by decide⟩
  · intro t s h
    simp [toolExecute, h]
  · intro t s uid h hf
    simp [toolExecute, h, hf]

/-- Witness for C3: both sentinel branches at concrete inputs. -/
theorem toolExecute_sentinels_C3_witness :
    toolExecute ⟨"d", none⟩ ⟨[], []⟩ = userNotFoundSentinel ∧
    toolExecute ⟨"d", some "u1"⟩ ⟨[], []⟩ = noContactsSentinel :=
  ⟨toolExecute_sentinels_C3.1 ⟨"d", none⟩ ⟨[], []⟩ rfl,
   toolExecute_sentinels_C3.2.1 ⟨"d", some "u1"⟩ ⟨[], []⟩ "u1" rfl rfl⟩

/-- The `streamText` loop under `stepCountIs n` never exceeds `max start n`
completed steps, whatever the model would like to do. -/
lemma loopSteps_stepCountIs_le (n : Nat) :
    ∀ (fuel start : Nat), loopSteps (stopHolds (.stepCountIs n)) fuel start ≤ max start n := by
  intro fuel
  induction fuel with
  | zero => intro start; simp [loopSteps]
  | succ f ih =>
    intro start
    by_cases h : n ≤ start
    · simp [loopSteps, stopHolds, h]
    · have hs : stopHolds (.stepCountIs n) start = false := by
        simp [stopHolds]; omega
      have h1 : loopSteps (stopHolds (.stepCountIs n)) f (start + 1) ≤ max (start + 1) n :=
        ih (start + 1)
      have h2 : max (start + 1) n = n := Nat.max_eq_right (by omega)
      have h3 : n ≤ max start n := Nat.le_max_right _ _
      simp only [loopSteps, hs, Bool.false_eq_true, if_false]
      omega

/-- C2: every chat request that reaches the completion service is configured
with the fixed model, the `stepCountIs 3` stop condition and exactly the tool
set `createTools` closed over the resolved user id (a `ToolSet` holds a
single `getContacts` tool by construction); under that stop condition the
step loop can never complete more than 3 steps. -/
theorem chat_stream_config_C2 :
    ∀ (auth : Option String) (s : Store) (messages : Option MessagesField)
      (call : StreamTextCall),
      chatWithAssistant auth s messages = .stream call →
      ∃ clerk msgs, auth = some clerk ∧ messages = some (.arr msgs) ∧
        call = { model := MODEL, messages := msgs, stopWhen := .stepCountIs 3,
                 tools := createTools (getUserId s clerk) } ∧
        call.tools.getContacts.userId = getUserId s clerk ∧
        ∀ fuel, loopSteps (stopHolds call.stopWhen) fuel 0 ≤ 3 := by
  intro auth s messages call h
  match messages, auth with
  | none, _ => simp [chatWithAssistant] at h
  | some .notArr, _ => simp [chatWithAssistant] at h
  | some (.arr msgs), none => simp [chatWithAssistant] at h
  | some (.arr msgs), some clerk =>
    have hc : call = { model := MODEL, messages := msgs, stopWhen := .stepCountIs 3, tools := createTools (getUserId s clerk) } := by
      simpa [chatWithAssistant] using h.symm
    subst hc
    refine ⟨clerk, msgs, rfl, rfl, rfl, rfl, ?_⟩
    intro fuel
    simpa using loopSteps_stepCountIs_le 3 fuel 0

/-- Witness for C2 at a concrete authenticated request. -/
theorem chat_stream_config_C2_witness :
    ∃ clerk msgs, (some "ck" : Option String) = some clerk ∧
      (some (.arr []) : Option MessagesField) = some (.arr msgs) ∧
      ({ model := MODEL, messages := [], stopWhen := .stepCountIs 3,
         tools := createTools (getUserId ⟨[], []⟩ "ck") } : StreamTextCall)
        = { model := MODEL, messages := msgs, stopWhen := .stepCountIs 3,
            tools := createTools (getUserId ⟨[], []⟩ clerk) } ∧
      ({ model := MODEL, messages := [], stopWhen := .stepCountIs 3,
         tools := createTools (getUserId ⟨[], []⟩ "ck") } : StreamTextCall).tools.getContacts.userId
        = getUserId ⟨[], []⟩ clerk ∧
      ∀ fuel, loopSteps (stopHolds (StreamTextCall.stopWhen
          { model := MODEL, messages := [], stopWhen := .stepCountIs 3,
            tools := createTools (getUserId ⟨[], []⟩ "ck") })) fuel 0 ≤ 3 :=
  chat_stream_config_C2 (some "ck") ⟨[], []⟩ (some (.arr [])) _ rfl

/-- C9 counterexample: a request with malformed `messages` AND no caller
identity is answered 400, not 401 — the messages check runs first, so the
claim's "every request with no resolvable caller identity gets 401" fails. -/
theorem chat_checks_C9_counterexample :
    chatWithAssistant none ⟨[], []⟩ none
      = .resp ⟨400, .errorObj "Messages array is required"⟩ ∧
    chatWithAssistant none ⟨[], []⟩ none
      ≠ .resp ⟨401, .errorObj "Unauthorized"⟩ := by
  constructor
  · rfl
  · decide

/-- C9 (amended): a missing or non-array `messages` field is answered 400
before anything else; a well-formed message list with no caller identity is
answered 401; and the completion service is reached exactly when both checks
pass. -/
theorem chat_checks_C9_amended :
    ∀ (auth : Option String) (s : Store) (messages : Option MessagesField),
      ((messages = none ∨ messages = some .notArr) →
        chatWithAssistant auth s messages
          = .resp ⟨400, .errorObj "Messages array is required"⟩) ∧
      (∀ msgs, messages = some (.arr msgs) → auth = none →
        chatWithAssistant auth s messages = .resp ⟨401, .errorObj "Unauthorized"⟩) ∧
      (∀ msgs clerk, messages = some (.arr msgs) → auth = some clerk →
        chatWithAssistant auth s messages
          = .stream { model := MODEL, messages := msgs, stopWhen := .stepCountIs 3,
                      tools := createTools (getUserId s clerk) }) ∧
      ((∃ call, chatWithAssistant auth s messages = .stream call) ↔
        ((∃ msgs, messages = some (.arr msgs)) ∧ auth ≠ none)) := by
  intro auth s messages
  refine ⟨?_, ?_, ?_, ?_⟩
  · rintro (h | h) <;> simp [chatWithAssistant, h]
  · rintro msgs rfl rfl; rfl
  · rintro msgs clerk rfl rfl; rfl
  · constructor
    · rintro ⟨call, hc⟩
      match messages, auth with
      | none, _ => simp [chatWithAssistant] at hc
      | some .notArr, _ => simp [chatWithAssistant] at hc
      | some (.arr msgs), none => simp [chatWithAssistant] at hc
      | some (.arr msgs), some clerk => exact ⟨⟨msgs, rfl⟩, by simp⟩
    · rintro ⟨⟨msgs, rfl⟩, hauth⟩
      match auth with
      | none => exact absurd rfl hauth
      | some clerk => exact ⟨_, rfl⟩

/-- Witness for C9's amended statement: the 400 branch at a concrete input. -/
theorem chat_checks_C9_amended_witness :
    chatWithAssistant (some "ck") ⟨[], []⟩ (some .notArr)
      = .resp ⟨400, .errorObj "Messages array is required"⟩ :=
  (chat_checks_C9_amended (some "ck") ⟨[], []⟩ (some .notArr)).1 (Or.inr rfl)

/-- C1: for distinct users, a GET, PUT or DELETE by user B on a contact id
wholly owned by user A behaves exactly as on a store where that id names no
contact at all: the same 404 `Contact not found` response (never a
permission-denied class, never A's data) and no mutation of the store. -/
theorem cross_user_isolation_C1 :
    ∀ (s : Store) (bClerk cid aId : String) (b : User),
      findUserByClerk s bClerk = some b →
      (∃ c ∈ s.contacts, c.id = cid ∧ c.userId = aId) →
      (∀ c ∈ s.contacts, c.id = cid → c.userId = aId) →
      b.id ≠ aId →
      (getContactById (some bClerk) s cid = ⟨404, .errorObj "Contact not found"⟩) ∧
      (getContactById (some bClerk)
          { s with contacts := s.contacts.filter (fun c => !(c.id == cid)) } cid
        = getContactById (some bClerk) s cid) ∧
      (∀ (body : UpdateBody) (now : Nat),
        (updateContact (some bClerk) s cid body now).1
          = (updateContact (some bClerk)
              { s with contacts := s.contacts.filter (fun c => !(c.id == cid)) } cid body now).1 ∧
        (updateContact (some bClerk) s cid body now).2 = s) ∧
      ((deleteContact (some bClerk) s cid).1 = ⟨404, .errorObj "Contact not found"⟩ ∧
       (deleteContact (some bClerk) s cid).1
         = (deleteContact (some bClerk)
             { s with contacts := s.contacts.filter (fun c => !(c.id == cid)) } cid).1 ∧
       (deleteContact (some bClerk) s cid).2 = s) := by
  intro s bClerk cid aId b hfind hex hown hne
  have hauth : getAuthenticatedUser (some bClerk) s = .ok b := by
    simp [getAuthenticatedUser, hfind]
  have hauth2 : getAuthenticatedUser (some bClerk)
      { s with contacts := s.contacts.filter (fun c => !(c.id == cid)) } = .ok b := hauth
  have hnone1 : findOwnedContact s b.id cid = none := by
    unfold findOwnedContact
    rw [List.find?_eq_none]
    intro c hc
    simp only [Bool.and_eq_true, beq_iff_eq, not_and]
    intro hcid hcu
    exact hne (hcu.symm.trans (hown c hc hcid))
  have hnone2 : findOwnedContact
      { s with contacts := s.contacts.filter (fun c => !(c.id == cid)) } b.id cid = none := by
    unfold findOwnedContact
    rw [List.find?_eq_none]
    intro c hc
    simp only [List.mem_filter, Bool.not_eq_eq_eq_not, Bool.not_true, beq_eq_false_iff_ne] at hc
    simp [hc.2]
  refine ⟨?_, ?_, ?_, ?_, ?_, ?_⟩
  · simp [getContactById, hauth, hnone1]
  · simp [getContactById, hauth, hauth2, hnone1, hnone2]
  · intro body now
    cases hv : validateUpdate body with
    | nil =>
      constructor <;> simp [updateContact, hv, hauth, hauth2, hnone1, hnone2]
    | cons e es =>
      constructor <;> simp [updateContact, hv]
  · simp [deleteContact, hauth, hnone1]
  · simp [deleteContact, hauth, hauth2, hnone1, hnone2]
  · simp [deleteContact, hauth, hnone1]

/-- Witness for C1: user B probing user A's contact gets the generic 404. -/
theorem cross_user_isolation_C1_witness :
    getContactById (some "ckB")
      ⟨[⟨"uA", "ckA", none, 0, 0⟩, ⟨"uB", "ckB", none, 0, 0⟩],
       [⟨"c1", "uA", "Mom", none, 1, 2, none, 0, 0⟩]⟩ "c1"
      = ⟨404, .errorObj "Contact not found"⟩ :=
  (cross_user_isolation_C1
    ⟨[⟨"uA", "ckA", none, 0, 0⟩, ⟨"uB", "ckB", none, 0, 0⟩],
     [⟨"c1", "uA", "Mom", none, 1, 2, none, 0, 0⟩]⟩ "ckB" "c1" "uA"
    ⟨"uB", "ckB", none, 0, 0⟩ (by decide)
    ⟨⟨"c1", "uA", "Mom", none, 1, 2, none, 0, 0⟩, by simp, rfl, rfl⟩
    (by decide) (by decide)).1

/-- An out-of-range month puts the month issue into the create validation
result. -/
lemma validateCreate_month_mem (b : CreateBody)
    (h : b.birthdayMonth < 1 ∨ 12 < b.birthdayMonth) :
    (⟨"birthdayMonth", "Month must be between 1 and 12"⟩ : FieldError) ∈ validateCreate b := by
  unfold validateCreate
  rw [if_pos h]
  simp

/-- An out-of-range day puts the day issue into the create validation
result. -/
lemma validateCreate_day_mem (b : CreateBody)
    (h : b.birthdayDay < 1 ∨ 31 < b.birthdayDay) :
    (⟨"birthdayDay", "Day must be between 1 and 31"⟩ : FieldError) ∈ validateCreate b := by
  unfold validateCreate
  rw [if_pos h]
  simp

/-- C6: for an authenticated, synced caller, every body with a non-empty
name, month in 1..12 and day in 1..31 is accepted with 201 and a record
whose name, month and day equal the input exactly — the ranges are checked
independently, with no calendar cross-validation — while any out-of-range
month or day is answered 400 with the per-field messages, with a response
that does not depend on the store and a store left unchanged. -/
theorem createContact_validation_C6 :
    (∀ (s : Store) (clerk : String) (u : User) (b : CreateBody) (nid : String) (now : Nat),
      findUserByClerk s clerk = some u →
      b.name ≠ "" → 1 ≤ b.birthdayMonth → b.birthdayMonth ≤ 12 →
      1 ≤ b.birthdayDay → b.birthdayDay ≤ 31 →
      ∃ c : Contact,
        createContact (some clerk) s b nid now
          = (⟨201, .contact c⟩, { s with contacts := s.contacts ++ [c] }) ∧
        c.name = b.name ∧ c.birthdayMonth = b.birthdayMonth ∧
        c.birthdayDay = b.birthdayDay) ∧
    (∀ (auth : Option String) (s : Store) (b : CreateBody) (nid : String) (now : Nat),
      (b.birthdayMonth < 1 ∨ 12 < b.birthdayMonth ∨ b.birthdayDay < 1 ∨ 31 < b.birthdayDay) →
      (createContact auth s b nid now).1 = ⟨400, .fieldErrors (validateCreate b)⟩ ∧
      (createContact auth s b nid now).2 = s ∧
      validateCreate b ≠ [] ∧
      ((b.birthdayMonth < 1 ∨ 12 < b.birthdayMonth) →
        (⟨"birthdayMonth", "Month must be between 1 and 12"⟩ : FieldError) ∈ validateCreate b) ∧
      ((b.birthdayDay < 1 ∨ 31 < b.birthdayDay) →
        (⟨"birthdayDay", "Day must be between 1 and 31"⟩ : FieldError) ∈ validateCreate b)) := by
  constructor
  · intro s clerk u b nid now hfind hname hm1 hm2 hd1 hd2
    have hvm : ¬(b.birthdayMonth < 1 ∨ 12 < b.birthdayMonth) := by omega
    have hvd : ¬(b.birthdayDay < 1 ∨ 31 < b.birthdayDay) := by omega
    have hv : validateCreate b = [] := by
      unfold validateCreate
      rw [if_neg hname, if_neg hvm, if_neg hvd]
      rfl
    refine ⟨{ id := nid, userId := u.id, name := b.name,
              birthdayYear := b.birthdayYear.join,
              birthdayMonth := b.birthdayMonth, birthdayDay := b.birthdayDay,
              notes := none, createdAt := now, updatedAt := now }, ?_, rfl, rfl, rfl⟩
    simp [createContact, hv, getAuthenticatedUser, hfind]
  · intro auth s b nid now hbad
    have hv : validateCreate b ≠ [] := by
      rcases hbad with h | h | h | h
      · exact List.ne_nil_of_mem (validateCreate_month_mem b (Or.inl h))
      · exact List.ne_nil_of_mem (validateCreate_month_mem b (Or.inr h))
      · exact List.ne_nil_of_mem (validateCreate_day_mem b (Or.inl h))
      · exact List.ne_nil_of_mem (validateCreate_day_mem b (Or.inr h))
    refine ⟨?_, ?_, hv, fun hm => validateCreate_month_mem b hm,
            fun hd => validateCreate_day_mem b hd⟩
    · cases hveq : validateCreate b with
      | nil => exact absurd hveq hv
      | cons e es => simp [createContact, hveq]
    · cases hveq : validateCreate b with
      | nil => exact absurd hveq hv
      | cons e es => simp [createContact, hveq]

/-- Witness for C6: the calendar boundary month=2, day=31 is accepted with
201, and month=13 is rejected 400 with the month message. -/
theorem createContact_validation_C6_witness :
    (∃ c : Contact,
      createContact (some "ck") ⟨[⟨"u1", "ck", none, 0, 0⟩], []⟩ ⟨"Bo", 2, 31, none⟩ "c9" 7
        = (⟨201, .contact c⟩,
           { (⟨[⟨"u1", "ck", none, 0, 0⟩], []⟩ : Store) with
             contacts := ([] : List Contact) ++ [c] }) ∧
      c.name = "Bo" ∧ c.birthdayMonth = 2 ∧ c.birthdayDay = 31) ∧
    ((createContact (some "ck") ⟨[⟨"u1", "ck", none, 0, 0⟩], []⟩ ⟨"Bo", 13, 5, none⟩ "c9" 7).1
        = ⟨400, .fieldErrors (validateCreate ⟨"Bo", 13, 5, none⟩)⟩ ∧
      (createContact (some "ck") ⟨[⟨"u1", "ck", none, 0, 0⟩], []⟩ ⟨"Bo", 13, 5, none⟩ "c9" 7).2
        = ⟨[⟨"u1", "ck", none, 0, 0⟩], []⟩ ∧
      validateCreate ⟨"Bo", 13, 5, none⟩ ≠ [] ∧
      ((13 : Int) < 1 ∨ 12 < (13 : Int) →
        (⟨"birthdayMonth", "Month must be between 1 and 12"⟩ : FieldError)
          ∈ validateCreate ⟨"Bo", 13, 5, none⟩) ∧
      ((5 : Int) < 1 ∨ 31 < (5 : Int) →
        (⟨"birthdayDay", "Day must be between 1 and 31"⟩ : FieldError)
          ∈ validateCreate ⟨"Bo", 13, 5, none⟩)) :=
  ⟨createContact_validation_C6.1 ⟨[⟨"u1", "ck", none, 0, 0⟩], []⟩ "ck" ⟨"u1", "ck", none, 0, 0⟩
      ⟨"Bo", 2, 31, none⟩ "c9" 7 rfl (by decide) (by decide) (by decide) (by decide) (by decide),
   createContact_validation_C6.2 (some "ck") ⟨[⟨"u1", "ck", none, 0, 0⟩], []⟩
      ⟨"Bo", 13, 5, none⟩ "c9" 7 (Or.inr (Or.inl (by decide)))⟩

/-- C10 counterexample: an authenticated-but-unsynced caller posting an
invalid body is answered 400 (validation runs before the user lookup), not
the claimed 404 `User not found`. -/
theorem unsynced_identity_C10_counterexample :
    (createContact (some "ck") ⟨[], []⟩ ⟨"A", 13, 5, none⟩ "n1" 0).1
      = ⟨400, .fieldErrors [⟨"birthdayMonth", "Month must be between 1 and 12"⟩]⟩ ∧
    (createContact (some "ck") ⟨[], []⟩ ⟨"A", 13, 5, none⟩ "n1" 0).1
      ≠ ⟨404, .errorObj "User not found"⟩ := by
  constructor
  · rfl
  · decide

/-- C10 (amended): for a verified identity with no User row, list,
get-by-id and delete — and create/update whose bodies pass validation — are
answered 404 `User not found`; create/update with invalid bodies are
answered 400 before the user lookup; in every case the response is the same
for every contacts table and the store is returned unchanged. -/
theorem unsynced_identity_C10_amended :
    ∀ (s : Store) (clerk : String) (cs : List Contact) (cid nid : String) (now : Nat),
      (∀ u ∈ s.users, u.clerkUserId ≠ clerk) →
      (getContacts (some clerk) { users := s.users, contacts := cs }
          = ⟨404, .errorObj "User not found"⟩) ∧
      (getContactById (some clerk) { users := s.users, contacts := cs } cid
          = ⟨404, .errorObj "User not found"⟩) ∧
      (deleteContact (some clerk) { users := s.users, contacts := cs } cid
          = (⟨404, .errorObj "User not found"⟩, { users := s.users, contacts := cs })) ∧
      (∀ b : CreateBody, validateCreate b = [] →
        createContact (some clerk) { users := s.users, contacts := cs } b nid now
          = (⟨404, .errorObj "User not found"⟩, { users := s.users, contacts := cs })) ∧
      (∀ b : CreateBody, validateCreate b ≠ [] →
        createContact (some clerk) { users := s.users, contacts := cs } b nid now
          = (⟨400, .fieldErrors (validateCreate b)⟩, { users := s.users, contacts := cs })) ∧
      (∀ b : UpdateBody, validateUpdate b = [] →
        updateContact (some clerk) { users := s.users, contacts := cs } cid b now
          = (⟨404, .errorObj "User not found"⟩, { users := s.users, contacts := cs })) ∧
      (∀ b : UpdateBody, validateUpdate b ≠ [] →
        updateContact (some clerk) { users := s.users, contacts := cs } cid b now
          = (⟨400, .fieldErrors (validateUpdate b)⟩, { users := s.users, contacts := cs })) := by
  intro s clerk cs cid nid now hno
  have hfind : findUserByClerk { users := s.users, contacts := cs } clerk = none := by
    unfold findUserByClerk
    rw [List.find?_eq_none]
    intro u hu
    simpa using hno u hu
  have hauth : getAuthenticatedUser (some clerk) { users := s.users, contacts := cs }
      = .error ⟨404, .errorObj "User not found"⟩ := by
    simp [getAuthenticatedUser, hfind]
  refine ⟨?_, ?_, ?_, ?_, ?_, ?_, ?_⟩
  · simp [getContacts, hauth]
  · simp [getContactById, hauth]
  · simp [deleteContact, hauth]
  · intro b hv; simp [createContact, hv, hauth]
  · intro b hv
    cases hveq : validateCreate b with
    | nil => exact absurd hveq hv
    | cons e es => simp [createContact, hveq]
  · intro b hv; simp [updateContact, hv, hauth]
  · intro b hv
    cases hveq : validateUpdate b with
    | nil => exact absurd hveq hv
    | cons e es => simp [updateContact, hveq]

/-- Witness for C10's amended statement: a synced-nobody store answers the
list endpoint with 404 `User not found`. -/
theorem unsynced_identity_C10_amended_witness :
    getContacts (some "ck") { users := [], contacts := [] }
      = ⟨404, .errorObj "User not found"⟩ :=
  (unsynced_identity_C10_amended ⟨[], []⟩ "ck" [] "c1" "n1" 0 (by simp)).1

/-- The conflict-update pass of the upsert leaves the number of rows keyed
by the Clerk id unchanged (the update does not touch `clerk_user_id`). -/
lemma userCount_map_sync (l : List User) (clerk : String) (e : Option String) (t : Nat) :
    userCountByClerk
      (l.map (fun u => if u.clerkUserId == clerk then { u with email := e, updatedAt := t } else u))
      clerk = userCountByClerk l clerk := by
  unfold userCountByClerk
  rw [List.countP_map]
  apply List.countP_congr
  intro u _
  by_cases h : u.clerkUserId == clerk <;> simp [Function.comp, h]

/-- One sync call leaves exactly one row keyed by the identity, given the
unique-column invariant (at most one before the call). -/
lemma userCount_sync_eq_one (s : Store) (clerk : String) (e : Option String)
    (nid : String) (t : Nat) (h : userCountByClerk s.users clerk ≤ 1) :
    userCountByClerk (syncUser (some clerk) s e nid t).2.users clerk = 1 := by
  by_cases hany : s.users.any (fun u => u.clerkUserId == clerk)
  · have hpos : 0 < userCountByClerk s.users clerk := by
      rw [userCountByClerk, List.countP_pos_iff]
      exact List.any_eq_true.mp hany
    have hmap := userCount_map_sync s.users clerk e t
    simp only [syncUser, hany, if_true]
    rw [hmap]
    omega
  · have hzero : ∀ u ∈ s.users, ¬(u.clerkUserId == clerk) = true := by
      intro u hu hbeq
      exact hany (List.any_eq_true.mpr ⟨u, hu, hbeq⟩)
    have hanyf : s.users.any (fun u => u.clerkUserId == clerk) = false := by
      simpa using hany
    simp only [syncUser, hanyf, if_false, Bool.false_eq_true]
    rw [userCountByClerk, List.countP_append]
    have h0 : List.countP (fun u => u.clerkUserId == clerk) s.users = 0 :=
      List.countP_eq_zero.mpr hzero
    rw [h0]
    simp [List.countP_cons]

/-- C7: `POST /api/users/sync` is idempotent on User rows: starting from a
store satisfying the unique-`clerk_user_id` invariant, the first call leaves
exactly one row keyed by the identity (appending a fresh row when none
existed), and a second call still leaves exactly one row and adds no row at
all; rows keyed by other identities survive untouched, and the keyed row is
updated only in its email and update timestamp. -/
theorem syncUser_idempotent_C7 :
    ∀ (s : Store) (clerk : String) (e1 e2 : Option String) (id1 id2 : String)
      (t1 t2 : Nat) (s1 s2 : Store),
      userCountByClerk s.users clerk ≤ 1 →
      s1 = (syncUser (some clerk) s e1 id1 t1).2 →
      s2 = (syncUser (some clerk) s1 e2 id2 t2).2 →
      userCountByClerk s1.users clerk = 1 ∧
      userCountByClerk s2.users clerk = 1 ∧
      s2.users.length = s1.users.length ∧
      (userCountByClerk s.users clerk = 0 →
        s1.users = s.users ++ [⟨id1, clerk, e1, t1, t1⟩]) ∧
      (∀ u ∈ s.users, u.clerkUserId ≠ clerk → u ∈ s1.users) ∧
      (∀ u ∈ s.users, u.clerkUserId = clerk →
        ({ u with email := e1, updatedAt := t1 } : User) ∈ s1.users) := by
  intro s clerk e1 e2 id1 id2 t1 t2 s1 s2 huniq hs1 hs2
  have hc1 : userCountByClerk s1.users clerk = 1 := by
    rw [hs1]; exact userCount_sync_eq_one s clerk e1 id1 t1 huniq
  have hc2 : userCountByClerk s2.users clerk = 1 := by
    rw [hs2]; exact userCount_sync_eq_one s1 clerk e2 id2 t2 (by omega)
  have hany1 : s1.users.any (fun u => u.clerkUserId == clerk) = true := by
    rw [List.any_eq_true]
    rw [userCountByClerk] at hc1
    exact List.countP_pos_iff.mp (by omega)
  have hlen : s2.users.length = s1.users.length := by
    rw [hs2]
    simp only [syncUser, hany1, if_true]
    exact List.length_map _ _
  refine ⟨hc1, hc2, hlen, ?_, ?_, ?_⟩
  · intro hzero
    have hanyf : s.users.any (fun u => u.clerkUserId == clerk) = false := by
      rw [List.any_eq_false]
      intro u hu
      rw [userCountByClerk, List.countP_eq_zero] at hzero
      exact hzero u hu
    rw [hs1]
    simp [syncUser, hanyf]
  · intro u hu hune
    by_cases hany : s.users.any (fun v => v.clerkUserId == clerk)
    · rw [hs1]
      simp only [syncUser, hany, if_true]
      have := List.mem_map_of_mem
        (fun v => if v.clerkUserId == clerk then { v with email := e1, updatedAt := t1 } else v) hu
      simpa [hune] using this
    · rw [hs1]
      simp only [syncUser, hany, if_false, Bool.false_eq_true]
      exact List.mem_append_left _ hu
  · intro u hu hueq
    have hany : s.users.any (fun v => v.clerkUserId == clerk) = true := by
      rw [List.any_eq_true]
      exact ⟨u, hu, by simp [hueq]⟩
    rw [hs1]
    simp only [syncUser, hany, if_true]
    have := List.mem_map_of_mem
      (fun v => if v.clerkUserId == clerk then { v with email := e1, updatedAt := t1 } else v) hu
    simpa [hueq] using this

/-- Witness for C7: two syncs of the same identity on an initially empty
directory leave a single row. -/
theorem syncUser_idempotent_C7_witness :
    userCountByClerk (syncUser (some "ck") ⟨[], []⟩ none "u1" 1).2.users "ck" = 1 ∧
    userCountByClerk
      (syncUser (some "ck") (syncUser (some "ck") ⟨[], []⟩ none "u1" 1).2 none "u2" 2).2.users
      "ck" = 1 :=
  ⟨(syncUser_idempotent_C7 ⟨[], []⟩ "ck" none none "u1" "u2" 1 2
      (syncUser (some "ck") ⟨[], []⟩ none "u1" 1).2
      (syncUser (some "ck") (syncUser (some "ck") ⟨[], []⟩ none "u1" 1).2 none "u2" 2).2
      (by decide) rfl rfl).1,
   (syncUser_idempotent_C7 ⟨[], []⟩ "ck" none none "u1" "u2" 1 2
      (syncUser (some "ck") ⟨[], []⟩ none "u1" 1).2
      (syncUser (some "ck") (syncUser (some "ck") ⟨[], []⟩ none "u1" 1).2 none "u2" 2).2
      (by decide) rfl rfl).2.1⟩

/-- `find?` returns the unique element satisfying the predicate when there
is exactly one (the shape of a primary-key lookup). -/
lemma find?_unique {α : Type} (p : α → Bool) (l : List α) (a : α)
    (ha : a ∈ l) (hpa : p a = true) (hu : ∀ x ∈ l, p x = true → x = a) :
    l.find? p = some a := by
  induction l with
  | nil => cases ha
  | cons x xs ih =>
    by_cases hx : p x = true
    · have hxa : x = a := hu x (List.mem_cons_self x xs) hx
      subst hxa
      simp [List.find?_cons, hx]
    · have hxf : p x = false := by simpa using hx
      have hax : a ∈ xs := by
        rcases List.mem_cons.mp ha with h | h
        · exact absurd (h ▸ hpa) hx
        · exact h
      simp only [List.find?_cons, hxf]
      exact ih hax (fun y hy hpy => hu y (List.mem_cons_of_mem x hy) hpy)

/-- C8: a valid partial update of an owned contact (the unique row with that
id) returns 200 with the updated record; the store keeps its users table,
rewrites only that one row, and the updated row changes exactly the supplied
fields plus `updatedAt` (advanced to `now`), leaving id, owner, creation
time and every unsupplied field untouched; a subsequent get-by-id returns
exactly the updated record. -/
theorem updateContact_frame_C8 :
    ∀ (s : Store) (clerk : String) (u : User) (c0 : Contact) (cid : String)
      (b : UpdateBody) (now : Nat),
      findUserByClerk s clerk = some u →
      c0 ∈ s.contacts → c0.id = cid → c0.userId = u.id →
      (∀ c ∈ s.contacts, c.id = cid → c = c0) →
      validateUpdate b = [] →
      c0.updatedAt < now →
      (updateContact (some clerk) s cid b now).1
        = ⟨200, .contact (applyUpdate b now c0)⟩ ∧
      (updateContact (some clerk) s cid b now).2.users = s.users ∧
      (updateContact (some clerk) s cid b now).2.contacts
        = s.contacts.map (fun c => if c = c0 then applyUpdate b now c0 else c) ∧
      getContactById (some clerk) (updateContact (some clerk) s cid b now).2 cid
        = ⟨200, .contact (applyUpdate b now c0)⟩ ∧
      (applyUpdate b now c0).id = c0.id ∧
      (applyUpdate b now c0).userId = c0.userId ∧
      (applyUpdate b now c0).createdAt = c0.createdAt ∧
      (applyUpdate b now c0).notes = c0.notes ∧
      (applyUpdate b now c0).updatedAt = now ∧
      c0.updatedAt < (applyUpdate b now c0).updatedAt ∧
      (b.name = none → (applyUpdate b now c0).name = c0.name) ∧
      (∀ v, b.name = some v → (applyUpdate b now c0).name = v) ∧
      (b.birthdayMonth = none → (applyUpdate b now c0).birthdayMonth = c0.birthdayMonth) ∧
      (∀ v, b.birthdayMonth = some v → (applyUpdate b now c0).birthdayMonth = v) ∧
      (b.birthdayDay = none → (applyUpdate b now c0).birthdayDay = c0.birthdayDay) ∧
      (∀ v, b.birthdayDay = some v → (applyUpdate b now c0).birthdayDay = v) ∧
      (b.birthdayYear = none → (applyUpdate b now c0).birthdayYear = c0.birthdayYear) ∧
      (∀ v, b.birthdayYear = some v → (applyUpdate b now c0).birthdayYear = v) := by
  intro s clerk u c0 cid b now hfind hmem hid hown huniq hval hadv
  have hauth : getAuthenticatedUser (some clerk) s = .ok u := by
    simp [getAuthenticatedUser, hfind]
  have hp0 : (fun c : Contact => c.id == cid && c.userId == u.id) c0 = true := by
    simp [hid, hown]
  have hfound : findOwnedContact s u.id cid = some c0 := by
    unfold findOwnedContact
    refine find?_unique _ _ _ hmem hp0 ?_
    intro x hx hpx
    simp only [Bool.and_eq_true, beq_iff_eq] at hpx
    exact huniq x hx hpx.1
  have hupd : updateContact (some clerk) s cid b now
      = (⟨200, .contact (applyUpdate b now c0)⟩,
         { s with
           contacts := s.contacts.map
             (fun c => if c.id == cid && c.userId == u.id then applyUpdate b now c else c) }) := by
    simp [updateContact, hval, hauth, hfound]
  have hmapeq : s.contacts.map
      (fun c => if c.id == cid && c.userId == u.id then applyUpdate b now c else c)
      = s.contacts.map (fun c => if c = c0 then applyUpdate b now c0 else c) := by
    apply List.map_congr_left
    intro c hc
    by_cases hceq : c = c0
    · subst hceq
      simp [hp0]
    · have hcid : (c.id == cid) = false := by
        have : c.id ≠ cid := fun h => hceq (huniq c hc h)
        simpa using this
      simp [hcid, hceq]
  have hauth2 : getAuthenticatedUser (some clerk) (updateContact (some clerk) s cid b now).2
      = .ok u := by
    rw [hupd]
    exact hauth
  have hfound2 : findOwnedContact (updateContact (some clerk) s cid b now).2 u.id cid
      = some (applyUpdate b now c0) := by
    rw [hupd]
    unfold findOwnedContact
    refine find?_unique _ _ _ ?_ ?_ ?_
    · have := List.mem_map_of_mem
        (fun c => if c.id == cid && c.userId == u.id then applyUpdate b now c else c) hmem
      simpa [hp0] using this
    · simp [applyUpdate, hid, hown]
    · intro x hx hpx
      obtain ⟨c, hc, rfl⟩ := List.mem_map.mp hx
      by_cases hceq : c = c0
      · subst hceq
        simp [hp0]
      · have hcid : (c.id == cid) = false := by
          have : c.id ≠ cid := fun h => hceq (huniq c hc h)
          simpa using this
        rw [if_neg (by simp [hcid])] at hpx ⊢
        simp only [Bool.and_eq_true, beq_iff_eq] at hpx
        exact absurd (huniq c hc hpx.1) hceq
  refine ⟨?_, ?_, ?_, ?_, rfl, rfl, rfl, rfl, rfl, hadv, ?_, ?_, ?_, ?_, ?_, ?_, ?_, ?_⟩
  · rw [hupd]
  · rw [hupd]
  · rw [hupd]
    exact hmapeq
  · simp [getContactById, hauth2, hfound2]
  · intro h; simp [applyUpdate, h]
  · intro v h; simp [applyUpdate, h]
  · intro h; simp [applyUpdate, h]
  · intro v h; simp [applyUpdate, h]
  · intro h; simp [applyUpdate, h]
  · intro v h; simp [applyUpdate, h]
  · intro h; simp [applyUpdate, h]
  · intro v h; simp [applyUpdate, h]

/-- Witness for C8: renaming one owned contact returns the updated record. -/
theorem updateContact_frame_C8_witness :
    (updateContact (some "ck")
        ⟨[⟨"u1", "ck", none, 0, 0⟩], [⟨"c1", "u1", "Bob", none, 5, 6, none, 0, 0⟩]⟩
        "c1" ⟨some "Rob", none, none, none⟩ 3).1
      = ⟨200, .contact (applyUpdate ⟨some "Rob", none, none, none⟩ 3
          ⟨"c1", "u1", "Bob", none, 5, 6, none, 0, 0⟩)⟩ :=
  (updateContact_frame_C8
    ⟨[⟨"u1", "ck", none, 0, 0⟩], [⟨"c1", "u1", "Bob", none, 5, 6, none, 0, 0⟩]⟩
    "ck" ⟨"u1", "ck", none, 0, 0⟩ ⟨"c1", "u1", "Bob", none, 5, 6, none, 0, 0⟩
    "c1" ⟨some "Rob", none, none, none⟩ 3
    rfl (by decide) rfl rfl (by decide) rfl (by decide)).1
